import Mathlib

/-!
Verification of the video-translation workflow core.

The definitions below are a shallow embedding of the repository's
TypeScript handlers:

* `calculateWorkflowStatus` embeds the pure derivation function of
  `src/server/src/handlers/get_translation_workflow_status.ts` (lines 91-154).
* `specDeriveStatus` transcribes the flat ten-row ordered decision table of
  spec section 4.2 verbatim, to be compared with the code's nested version.

Database rows are modelled as Lean structures with the exact column lists of
`src/server/src/schema.ts`; SQL timestamps are modelled as `Nat`.
-/

namespace VideoTranslator

inductive UploadStatus where
  | pending
  | uploaded
  | processing
  | failed
deriving DecidableEq, Repr

inductive TranslationStatus where
  | pending
  | extracting_audio
  | translating
  | completed
  | failed
deriving DecidableEq, Repr

inductive AudioGenerationStatus where
  | pending
  | generating
  | completed
  | failed
deriving DecidableEq, Repr

inductive Language where
  | en | es | fr | de | it | pt | ru | zh | ja | ko | ar | hi
deriving DecidableEq, Repr

inductive OverallStatus where
  | not_started
  | uploading
  | translating
  | generating_audio
  | completed
  | failed
deriving DecidableEq, Repr

/-- Row of the `videos` table (`videoSchema` in `src/server/src/schema.ts`). -/
structure Video where
  id : Nat
  filename : String
  original_filename : String
  file_path : String
  file_size : Nat
  duration : Option Nat
  format : String
  upload_status : UploadStatus
  uploaded_at : Nat
  created_at : Nat
deriving DecidableEq, Repr

/-- Row of the `translation_jobs` table (`translationJobSchema`). -/
structure TranslationJob where
  id : Nat
  video_id : Nat
  source_language : Language
  target_language : Language
  status : TranslationStatus
  original_audio_path : Option String
  translated_text : Option String
  error_message : Option String
  started_at : Option Nat
  completed_at : Option Nat
  created_at : Nat
deriving DecidableEq, Repr

/-- Row of the `audio_generation_jobs` table (`audioGenerationJobSchema`). -/
structure AudioGenerationJob where
  id : Nat
  translation_job_id : Nat
  status : AudioGenerationStatus
  generated_audio_path : Option String
  voice_cloned : Bool
  error_message : Option String
  started_at : Option Nat
  completed_at : Option Nat
  created_at : Nat
deriving DecidableEq, Repr

/-- Row of the `final_outputs` table (`finalOutputSchema`). -/
structure FinalOutput where
  id : Nat
  video_id : Nat
  translation_job_id : Nat
  audio_generation_job_id : Nat
  final_video_path : String
  created_at : Nat
deriving DecidableEq, Repr

/-- The `{ overallStatus, progress }` pair returned by the derivation engine. -/
structure StatusResult where
  overallStatus : OverallStatus
  progress : Nat
deriving DecidableEq, Repr

/-- Embedding of `calculateWorkflowStatus` from
`src/server/src/handlers/get_translation_workflow_status.ts` (lines 91-154):
the same chain of early returns, with the nested `upload_status == 'uploaded'`
block; every path that falls through in the source reaches the single
fallback `{ not_started, 0 }`, rendered here as the `else` leaves. -/
def calculateWorkflowStatus (video : Video) (translationJob : Option TranslationJob)
    (audioGenerationJob : Option AudioGenerationJob) (finalOutput : Option FinalOutput) :
    StatusResult :=
  if finalOutput.isSome then
    { overallStatus := .completed, progress := 100 }
  else if video.upload_status = .failed then
    { overallStatus := .failed, progress := 0 }
  else if translationJob.map TranslationJob.status = some .failed then
    { overallStatus := .failed, progress := 25 }
  else if audioGenerationJob.map AudioGenerationJob.status = some .failed then
    { overallStatus := .failed, progress := 75 }
  else if video.upload_status = .pending ∨ video.upload_status = .processing then
    { overallStatus := .uploading, progress := 10 }
  else if video.upload_status = .uploaded then
    match translationJob with
    | none => { overallStatus := .not_started, progress := 25 }
    | some tj =>
      if tj.status = .pending ∨ tj.status = .extracting_audio ∨ tj.status = .translating then
        { overallStatus := .translating, progress := 50 }
      else if tj.status = .completed then
        match audioGenerationJob with
        | none => { overallStatus := .translating, progress := 75 }
        | some aj =>
          if aj.status = .pending ∨ aj.status = .generating then
            { overallStatus := .generating_audio, progress := 85 }
          else if aj.status = .completed then
            { overallStatus := .generating_audio, progress := 95 }
          else
            { overallStatus := .not_started, progress := 0 }
      else
        { overallStatus := .not_started, progress := 0 }
  else
    { overallStatus := .not_started, progress := 0 }

/-- Transcription of the flat ordered decision table of spec section 4.2,
written from the spec's words (not from the code): rules 1-10 tried in
order, first match wins, with the fallback row `{ not_started, 0 }`. -/
def specDeriveStatus (uploadStatus : UploadStatus)
    (translationStatus : Option TranslationStatus)
    (audioStatus : Option AudioGenerationStatus)
    (finalOutputPresent : Bool) : StatusResult :=
  if finalOutputPresent then
    { overallStatus := .completed, progress := 100 }
  else if uploadStatus = .failed then
    { overallStatus := .failed, progress := 0 }
  else if translationStatus = some .failed then
    { overallStatus := .failed, progress := 25 }
  else if audioStatus = some .failed then
    { overallStatus := .failed, progress := 75 }
  else if uploadStatus = .pending ∨ uploadStatus = .processing then
    { overallStatus := .uploading, progress := 10 }
  else if uploadStatus = .uploaded ∧ translationStatus = none then
    { overallStatus := .not_started, progress := 25 }
  else if translationStatus = some .pending ∨ translationStatus = some .extracting_audio ∨
      translationStatus = some .translating then
    { overallStatus := .translating, progress := 50 }
  else if translationStatus = some .completed ∧ audioStatus = none then
    { overallStatus := .translating, progress := 75 }
  else if audioStatus = some .pending ∨ audioStatus = some .generating then
    { overallStatus := .generating_audio, progress := 85 }
  else if audioStatus = some .completed then
    { overallStatus := .generating_audio, progress := 95 }
  else
    { overallStatus := .not_started, progress := 0 }

/-- C1: for every combination of inputs, the code's nested
`calculateWorkflowStatus` returns exactly the result of the first matching
row of the spec's ten-row ordered decision table (section 4.2), with the
fallback `{ not_started, 0 }` when no row matches. -/
theorem calculateWorkflowStatus_matches_spec_table (video : Video)
    (translationJob : Option TranslationJob)
    (audioGenerationJob : Option AudioGenerationJob)
    (finalOutput : Option FinalOutput) :
    calculateWorkflowStatus video translationJob audioGenerationJob finalOutput =
      specDeriveStatus video.upload_status
        (translationJob.map TranslationJob.status)
        (audioGenerationJob.map AudioGenerationJob.status)
        finalOutput.isSome := by
  rcases finalOutput with _ | f <;>
    rcases translationJob with _ | t <;>
    rcases audioGenerationJob with _ | a <;>
    obtain ⟨_, _, _, _, _, _, _, us, _, _⟩ := video <;>
    (try obtain ⟨_, _, _, _, ts, _, _, _, _, _, _⟩ := t) <;>
    (try obtain ⟨_, _, gs, _, _, _, _, _, _⟩ := a) <;>
    cases us <;> (try cases ts) <;> (try cases gs) <;> rfl

/-- C3: whenever a final output is present, the engine reports
`completed` with progress 100, regardless of the video's upload status and
of any failed translation or audio job (rule 1 dominates all failure rules). -/
theorem calculateWorkflowStatus_finalOutput_dominates (video : Video)
    (translationJob : Option TranslationJob)
    (audioGenerationJob : Option AudioGenerationJob) (f : FinalOutput) :
    calculateWorkflowStatus video translationJob audioGenerationJob (some f) =
      { overallStatus := .completed, progress := 100 } := by
  rfl

/-- Every value of `OverallStatus` is one of the six declared states. -/
theorem overallStatus_cases (s : OverallStatus) :
    s = .not_started ∨ s = .uploading ∨ s = .translating ∨
      s = .generating_audio ∨ s = .completed ∨ s = .failed := by
  cases s <;> simp

/-- C8: the derivation engine is total (it is a Lean function, defined on
every combination of its four inputs) and its result always has a progress
in [0, 100] and an overall status among the six declared states. -/
theorem calculateWorkflowStatus_total_bounds (video : Video)
    (translationJob : Option TranslationJob)
    (audioGenerationJob : Option AudioGenerationJob)
    (finalOutput : Option FinalOutput) :
    (calculateWorkflowStatus video translationJob audioGenerationJob finalOutput).progress ≤ 100 ∧
    ((calculateWorkflowStatus video translationJob audioGenerationJob finalOutput).overallStatus
        = .not_started ∨
      (calculateWorkflowStatus video translationJob audioGenerationJob finalOutput).overallStatus
        = .uploading ∨
      (calculateWorkflowStatus video translationJob audioGenerationJob finalOutput).overallStatus
        = .translating ∨
      (calculateWorkflowStatus video translationJob audioGenerationJob finalOutput).overallStatus
        = .generating_audio ∨
      (calculateWorkflowStatus video translationJob audioGenerationJob finalOutput).overallStatus
        = .completed ∨
      (calculateWorkflowStatus video translationJob audioGenerationJob finalOutput).overallStatus
        = .failed) := by
  refine ⟨?_, overallStatus_cases _⟩
  rcases finalOutput with _ | f <;>
    rcases translationJob with _ | t <;>
    rcases audioGenerationJob with _ | a <;>
    obtain ⟨_, _, _, _, _, _, _, us, _, _⟩ := video <;>
    (try obtain ⟨_, _, _, _, ts, _, _, _, _, _, _⟩ := t) <;>
    (try obtain ⟨_, _, gs, _, _, _, _, _, _⟩ := a) <;>
    cases us <;> (try cases ts) <;> (try cases gs) <;>
    (try norm_num [calculateWorkflowStatus]) <;> decide

/-- C9: the fallback row is unreachable: with all statuses drawn from their
declared enums, no input makes `calculateWorkflowStatus` return the fallback
value `{ not_started, 0 }` — one of the ten explicit rules always matches. -/
theorem calculateWorkflowStatus_fallback_unreachable (video : Video)
    (translationJob : Option TranslationJob)
    (audioGenerationJob : Option AudioGenerationJob)
    (finalOutput : Option FinalOutput) :
    calculateWorkflowStatus video translationJob audioGenerationJob finalOutput ≠
      { overallStatus := .not_started, progress := 0 } := by
  rcases finalOutput with _ | f <;>
    rcases translationJob with _ | t <;>
    rcases audioGenerationJob with _ | a <;>
    obtain ⟨_, _, _, _, _, _, _, us, _, _⟩ := video <;>
    (try obtain ⟨_, _, _, _, ts, _, _, _, _, _, _⟩ := t) <;>
    (try obtain ⟨_, _, gs, _, _, _, _, _, _⟩ := a) <;>
    cases us <;> (try cases ts) <;> (try cases gs) <;>
    (try norm_num [calculateWorkflowStatus]) <;> decide

/-! ## Storage model and the workflow query orchestrator -/

/-- In-memory model of the four tables of `src/server/src/db/schema.ts`;
each table is the list of its rows. -/
structure DB where
  videos : List Video
  translationJobs : List TranslationJob
  audioGenerationJobs : List AudioGenerationJob
  finalOutputs : List FinalOutput

/-- `SELECT * FROM videos WHERE id = videoId` followed by `rows[0]`
(handler lines 18-23); `id` is the serial primary key, so at most one row
matches. -/
def findVideoById (db : DB) (videoId : Nat) : Option Video :=
  db.videos.find? (fun v => v.id == videoId)

/-- Rows of `translation_jobs` with `video_id = videoId` (the WHERE clause of
handler lines 37-42). -/
def translationJobsByVideoId (db : DB) (videoId : Nat) : List TranslationJob :=
  db.translationJobs.filter (fun j => j.video_id == videoId)

/-- Rows of `audio_generation_jobs` with `translation_job_id = jobId`
(handler lines 49-54). -/
def audioJobsByTranslationJobId (db : DB) (translationJobId : Nat) :
    List AudioGenerationJob :=
  db.audioGenerationJobs.filter (fun j => j.translation_job_id == translationJobId)

/-- Rows of `final_outputs` with `video_id = videoId` (handler lines 60-65). -/
def finalOutputsByVideoId (db : DB) (videoId : Nat) : List FinalOutput :=
  db.finalOutputs.filter (fun o => o.video_id == videoId)

/-- Semantics of `ORDER BY created_at DESC LIMIT 1` over the selected rows.
SQL guarantees only that the returned row (when the selection is nonempty)
carries a maximal `created_at`; the query in the source orders by
`created_at` alone, so the order among rows with equal `created_at` is
unspecified and the fetch is modelled as a relation over the possible
results. -/
def SelectsLatest {α : Type} (time : α → Nat) (rows : List α) : Option α → Prop
  | none => rows = []
  | some r => r ∈ rows ∧ ∀ s ∈ rows, time s ≤ time r

instance {α : Type} [DecidableEq α] (time : α → Nat) (rows : List α)
    (sel : Option α) : Decidable (SelectsLatest time rows sel) :=
  match sel with
  | none => decidable_of_iff (rows = []) Iff.rfl
  | some r => decidable_of_iff (r ∈ rows ∧ ∀ s ∈ rows, time s ≤ time r) Iff.rfl

/-- `sel` is the strictly most recent row of `rows`: it is a member that is
strictly newer than every other member (or `rows` is empty and `sel` is
`none`). -/
def StrictlyLatest {α : Type} (time : α → Nat) (rows : List α) : Option α → Prop
  | none => rows = []
  | some r => r ∈ rows ∧ ∀ s ∈ rows, s ≠ r → time s < time r

instance {α : Type} [DecidableEq α] (time : α → Nat) (rows : List α)
    (sel : Option α) : Decidable (StrictlyLatest time rows sel) :=
  match sel with
  | none => decidable_of_iff (rows = []) Iff.rfl
  | some r => decidable_of_iff (r ∈ rows ∧ ∀ s ∈ rows, s ≠ r → time s < time r) Iff.rfl

/-- The response shape of the workflow status handler. -/
structure WorkflowStatus where
  video : Option Video
  translationJob : Option TranslationJob
  audioGenerationJob : Option AudioGenerationJob
  finalOutput : Option FinalOutput
  overallStatus : OverallStatus
  progress : Nat
deriving DecidableEq, Repr

/-- The all-null response returned for an unknown video id (handler
lines 25-34). -/
def emptyWorkflowStatus : WorkflowStatus :=
  { video := none, translationJob := none, audioGenerationJob := none,
    finalOutput := none, overallStatus := .not_started, progress := 0 }

/-- Relational embedding of `getTranslationWorkflowStatus`
(`src/server/src/handlers/get_translation_workflow_status.ts`, lines 15-89).
The handler only issues SELECT queries, so it is modelled as a pure relation
between the database and the possible responses: the video lookup, the three
latest-row fetches (`SelectsLatest`, reflecting the unspecified order among
equal timestamps), the audio fetch happening only under a found translation
job, and the final response assembled from `calculateWorkflowStatus`. -/
def workflowStatusRel (db : DB) (videoId : Nat) (res : WorkflowStatus) : Prop :=
  match findVideoById db videoId with
  | none => res = emptyWorkflowStatus
  | some video =>
      ∃ translationJob audioGenerationJob finalOutput,
        SelectsLatest TranslationJob.created_at (translationJobsByVideoId db videoId)
          translationJob ∧
        (match translationJob with
         | none => audioGenerationJob = none
         | some tj =>
             SelectsLatest AudioGenerationJob.created_at
               (audioJobsByTranslationJobId db tj.id) audioGenerationJob) ∧
        SelectsLatest FinalOutput.created_at (finalOutputsByVideoId db videoId)
          finalOutput ∧
        res = { video := some video, translationJob := translationJob,
                audioGenerationJob := audioGenerationJob, finalOutput := finalOutput,
                overallStatus := (calculateWorkflowStatus video translationJob
                  audioGenerationJob finalOutput).overallStatus,
                progress := (calculateWorkflowStatus video translationJob
                  audioGenerationJob finalOutput).progress }

/-- C5: when no stored video has the requested id, the only response the
handler can return is `{video: null, translationJob: null,
audioGenerationJob: null, finalOutput: null, overallStatus: 'not_started',
progress: 0}`; the `none` branch of the relation never consults
`calculateWorkflowStatus`, and the handler is read-only (the relation has no
output state at all). -/
theorem getTranslationWorkflowStatus_unknown_video (db : DB) (videoId : Nat)
    (res : WorkflowStatus) (h : findVideoById db videoId = none) :
    workflowStatusRel db videoId res ↔ res = emptyWorkflowStatus := by
  simp [workflowStatusRel, h]

/-- A database with no rows at all. -/
def emptyDb : DB :=
  { videos := [], translationJobs := [], audioGenerationJobs := [], finalOutputs := [] }

theorem getTranslationWorkflowStatus_unknown_video_witness :
    findVideoById emptyDb 1 = none ∧
    (workflowStatusRel emptyDb 1 emptyWorkflowStatus ↔
      emptyWorkflowStatus = emptyWorkflowStatus) :=
  ⟨rfl, getTranslationWorkflowStatus_unknown_video emptyDb 1 emptyWorkflowStatus rfl⟩

/-! ## Most-recent row selection (claim C2) -/

/-- A video in state `uploaded`, shared by the concrete scenarios below. -/
def video1 : Video :=
  { id := 1, filename := "a.mp4", original_filename := "a.mp4",
    file_path := "/videos/a.mp4", file_size := 10, duration := none,
    format := "mp4", upload_status := .uploaded, uploaded_at := 0,
    created_at := 0 }

/-- Failed translation job, `created_at` 50, id 1. -/
def tjFailedTie : TranslationJob :=
  { id := 1, video_id := 1, source_language := .en, target_language := .es,
    status := .failed, original_audio_path := none, translated_text := none,
    error_message := none, started_at := none, completed_at := none,
    created_at := 50 }

/-- Completed translation job, the same `created_at` 50, id 2. -/
def tjCompletedTie : TranslationJob :=
  { id := 2, video_id := 1, source_language := .en, target_language := .es,
    status := .completed, original_audio_path := none, translated_text := none,
    error_message := none, started_at := none, completed_at := none,
    created_at := 50 }

/-- Database with one uploaded video and two translation jobs whose
`created_at` collide. -/
def tieDb : DB :=
  { videos := [video1], translationJobs := [tjFailedTie, tjCompletedTie],
    audioGenerationJobs := [], finalOutputs := [] }

/-- C2 counterexample: the handler's query orders by `created_at` only, with
no id tie-break, so on a timestamp tie it may return the row with the
*smaller* id — here the failed job (id 1) instead of the completed job
(id 2), making the computed status `failed` even though a tied completed job
exists. This refutes "ties broken by greatest id". -/
theorem workflowStatus_tiebreak_counterexample :
    workflowStatusRel tieDb 1
      { video := some video1, translationJob := some tjFailedTie,
        audioGenerationJob := none, finalOutput := none,
        overallStatus := .failed, progress := 25 } ∧
    tjFailedTie.created_at = tjCompletedTie.created_at ∧
    tjFailedTie.id < tjCompletedTie.id ∧
    tjCompletedTie ∈ translationJobsByVideoId tieDb 1 := by
  refine ⟨⟨some tjFailedTie, none, none, by decide, rfl, by decide, rfl⟩,
    rfl, by decide, by decide⟩

/-- Any permitted result of a latest-row fetch coincides with the strictly
most recent row whenever one exists (and is `none` exactly on an empty
selection). -/
theorem selectsLatest_unique_of_strict {α : Type} (time : α → Nat)
    (rows : List α) (sel strict : Option α)
    (hsel : SelectsLatest time rows sel)
    (hstrict : StrictlyLatest time rows strict) : sel = strict := by
  cases strict with
  | none =>
      cases sel with
      | none => rfl
      | some s =>
          obtain ⟨hs, -⟩ := hsel
          rw [show rows = [] from hstrict] at hs
          cases hs
  | some r =>
      obtain ⟨hr, hmax⟩ := hstrict
      cases sel with
      | none =>
          rw [show rows = [] from hsel] at hr
          cases hr
      | some s =>
          obtain ⟨hs, hbound⟩ := hsel
          by_cases hsr : s = r
          · rw [hsr]
          · exact absurd (hbound r hr) (Nat.not_le.mpr (hmax s hs hsr))

/-- C2 amended: the orchestrator returns a row with the greatest creation
timestamp; when that row is *strictly* newer than every sibling (for each of
the three fetches), the selection is forced, only those strictly-latest rows
feed the derivation engine, and the response is completely determined by
them — so strictly older rows (e.g. an older failed translation job
superseded by a strictly newer completed one) never affect the computed
status. On equal timestamps no id tie-break is performed (see the
counterexample). -/
theorem workflowStatus_uses_strictly_latest_rows (db : DB) (videoId : Nat)
    (res : WorkflowStatus) (video : Video)
    (tjSel : Option TranslationJob) (ajSel : Option AudioGenerationJob)
    (foSel : Option FinalOutput)
    (hrel : workflowStatusRel db videoId res)
    (hv : findVideoById db videoId = some video)
    (htj : StrictlyLatest TranslationJob.created_at
      (translationJobsByVideoId db videoId) tjSel)
    (haj : match tjSel with
           | none => ajSel = none
           | some tj => StrictlyLatest AudioGenerationJob.created_at
               (audioJobsByTranslationJobId db tj.id) ajSel)
    (hfo : StrictlyLatest FinalOutput.created_at
      (finalOutputsByVideoId db videoId) foSel) :
    res = { video := some video, translationJob := tjSel,
            audioGenerationJob := ajSel, finalOutput := foSel,
            overallStatus :=
              (calculateWorkflowStatus video tjSel ajSel foSel).overallStatus,
            progress :=
              (calculateWorkflowStatus video tjSel ajSel foSel).progress } := by
  unfold workflowStatusRel at hrel
  rw [hv] at hrel
  obtain ⟨tj, aj, fo, hseltj, hmatch, hselfo, hres⟩ := hrel
  have htjeq : tj = tjSel := selectsLatest_unique_of_strict _ _ _ _ hseltj htj
  subst htjeq
  have hfoeq : fo = foSel := selectsLatest_unique_of_strict _ _ _ _ hselfo hfo
  subst hfoeq
  have hajeq : aj = ajSel := by
    cases tj with
    | none => rw [hmatch, haj]
    | some t => exact selectsLatest_unique_of_strict _ _ _ _ hmatch haj
  subst hajeq
  exact hres

/-- Older failed translation job, `created_at` 10. -/
def tjOldFailed : TranslationJob :=
  { id := 1, video_id := 1, source_language := .en, target_language := .es,
    status := .failed, original_audio_path := none, translated_text := none,
    error_message := none, started_at := none, completed_at := none,
    created_at := 10 }

/-- Strictly newer completed translation job, `created_at` 20. -/
def tjNewCompleted : TranslationJob :=
  { id := 2, video_id := 1, source_language := .en, target_language := .es,
    status := .completed, original_audio_path := none, translated_text := none,
    error_message := none, started_at := none, completed_at := none,
    created_at := 20 }

/-- Database for the strict-recency scenario of the spec: one uploaded
video, an older failed job and a strictly newer completed job. -/
def strictDb : DB :=
  { videos := [video1], translationJobs := [tjOldFailed, tjNewCompleted],
    audioGenerationJobs := [], finalOutputs := [] }

/-- The unique response the handler can give on `strictDb`. -/
def strictRes : WorkflowStatus :=
  { video := some video1, translationJob := some tjNewCompleted,
    audioGenerationJob := none, finalOutput := none,
    overallStatus := .translating, progress := 75 }

/-- The response forced by the strictly-latest rows of `strictDb`. -/
def strictExpected : WorkflowStatus :=
  { video := some video1, translationJob := some tjNewCompleted,
    audioGenerationJob := none, finalOutput := none,
    overallStatus :=
      (calculateWorkflowStatus video1 (some tjNewCompleted) none none).overallStatus,
    progress :=
      (calculateWorkflowStatus video1 (some tjNewCompleted) none none).progress }

theorem workflowStatus_uses_strictly_latest_rows_witness :
    workflowStatusRel strictDb 1 strictRes ∧
    tjOldFailed.created_at < tjNewCompleted.created_at ∧
    strictRes.overallStatus ≠ .failed ∧
    strictRes = strictExpected :=
  ⟨⟨some tjNewCompleted, none, none, by decide, rfl, by decide, rfl⟩,
    by decide, by decide,
    workflowStatus_uses_strictly_latest_rows strictDb 1 strictRes video1
      (some tjNewCompleted) none none
      ⟨some tjNewCompleted, none, none, by decide, rfl, by decide, rfl⟩
      (by decide) (by decide) (by decide) (by decide)⟩

/-! ## FinalOutput creation (`createFinalOutput`, src/unnamed/part_006) -/

/-- Input payload `CreateFinalOutputInput` of `src/server/src/schema.ts`. -/
structure CreateFinalOutputInput where
  video_id : Nat
  translation_job_id : Nat
  audio_generation_job_id : Nat
  final_video_path : String
deriving DecidableEq, Repr

/-- The literal text of an `upload_status` value interpolated into an error
message. -/
def uploadStatusText : UploadStatus → String
  | .pending => "pending"
  | .uploaded => "uploaded"
  | .processing => "processing"
  | .failed => "failed"

/-- The literal text of a translation `status` value. -/
def translationStatusText : TranslationStatus → String
  | .pending => "pending"
  | .extracting_audio => "extracting_audio"
  | .translating => "translating"
  | .completed => "completed"
  | .failed => "failed"

/-- The literal text of an audio generation `status` value. -/
def audioGenerationStatusText : AudioGenerationStatus → String
  | .pending => "pending"
  | .generating => "generating"
  | .completed => "completed"
  | .failed => "failed"

def videoNotFoundMessage (videoId : Nat) : String :=
  "Video with id " ++ toString videoId ++ " not found"

def videoNotUploadedMessage (videoId : Nat) (status : UploadStatus) : String :=
  "Video with id " ++ toString videoId ++ " is not uploaded (status: " ++
    uploadStatusText status ++ ")"

def translationJobNotFoundForVideoMessage (jobId videoId : Nat) : String :=
  "Translation job with id " ++ toString jobId ++ " not found for video " ++
    toString videoId

def translationJobNotCompletedMessage (jobId : Nat) (status : TranslationStatus) :
    String :=
  "Translation job with id " ++ toString jobId ++ " is not completed (status: " ++
    translationStatusText status ++ ")"

def audioJobNotFoundForTranslationJobMessage (audioJobId jobId : Nat) : String :=
  "Audio generation job with id " ++ toString audioJobId ++
    " not found for translation job " ++ toString jobId

def audioJobNotCompletedMessage (audioJobId : Nat)
    (status : AudioGenerationStatus) : String :=
  "Audio generation job with id " ++ toString audioJobId ++
    " is not completed (status: " ++ audioGenerationStatusText status ++ ")"

def finalOutputConflictMessage (input : CreateFinalOutputInput) : String :=
  "Final output already exists for video " ++ toString input.video_id ++
    ", translation job " ++ toString input.translation_job_id ++
    ", and audio generation job " ++ toString input.audio_generation_job_id

/-- `SELECT` with `and(eq(id, jobId), eq(video_id, videoId))` followed by
`rows[0]` (part_006 step 2): the id *and* the ownership are one conjoined
filter, so a job owned by another video is indistinguishable from a missing
one. -/
def findTranslationJobByIdAndVideoId (db : DB) (jobId videoId : Nat) :
    Option TranslationJob :=
  db.translationJobs.find? (fun j => j.id == jobId && j.video_id == videoId)

/-- `SELECT` with `and(eq(id, audioJobId), eq(translation_job_id, jobId))`
(part_006 step 3). -/
def findAudioJobByIdAndTranslationJobId (db : DB) (audioJobId jobId : Nat) :
    Option AudioGenerationJob :=
  db.audioGenerationJobs.find?
    (fun j => j.id == audioJobId && j.translation_job_id == jobId)

/-- Rows of `final_outputs` matching the full
(video_id, translation_job_id, audio_generation_job_id) triple
(part_006 step 4). -/
def finalOutputsByTriple (db : DB) (input : CreateFinalOutputInput) :
    List FinalOutput :=
  db.finalOutputs.filter (fun o =>
    o.video_id == input.video_id &&
    o.translation_job_id == input.translation_job_id &&
    o.audio_generation_job_id == input.audio_generation_job_id)

/-- The row inserted by `createFinalOutput` (part_006 step 5); the serial `id`
and the `defaultNow()` timestamp are supplied by the database and modelled as
the explicit `newId` and `createdAt` parameters. -/
def newFinalOutputRow (input : CreateFinalOutputInput) (newId createdAt : Nat) :
    FinalOutput :=
  { id := newId, video_id := input.video_id,
    translation_job_id := input.translation_job_id,
    audio_generation_job_id := input.audio_generation_job_id,
    final_video_path := input.final_video_path, created_at := createdAt }

/-- Embedding of `createFinalOutput` (src/unnamed/part_006): the four
validations in source order with their exact error messages, stopping at the
first failure (a thrown error leaves the database unchanged, hence the
returned state is `db` on every error path), then the insert. -/
def createFinalOutput (db : DB) (input : CreateFinalOutputInput)
    (newId createdAt : Nat) : Except String FinalOutput × DB :=
  match findVideoById db input.video_id with
  | none => (.error (videoNotFoundMessage input.video_id), db)
  | some video =>
    if video.upload_status ≠ .uploaded then
      (.error (videoNotUploadedMessage input.video_id video.upload_status), db)
    else
      match findTranslationJobByIdAndVideoId db input.translation_job_id
          input.video_id with
      | none =>
          (.error (translationJobNotFoundForVideoMessage input.translation_job_id
            input.video_id), db)
      | some translationJob =>
        if translationJob.status ≠ .completed then
          (.error (translationJobNotCompletedMessage input.translation_job_id
            translationJob.status), db)
        else
          match findAudioJobByIdAndTranslationJobId db
              input.audio_generation_job_id input.translation_job_id with
          | none =>
              (.error (audioJobNotFoundForTranslationJobMessage
                input.audio_generation_job_id input.translation_job_id), db)
          | some audioGenerationJob =>
            if audioGenerationJob.status ≠ .completed then
              (.error (audioJobNotCompletedMessage input.audio_generation_job_id
                audioGenerationJob.status), db)
            else if 0 < (finalOutputsByTriple db input).length then
              (.error (finalOutputConflictMessage input), db)
            else
              (.ok (newFinalOutputRow input newId createdAt),
                { db with finalOutputs :=
                    db.finalOutputs ++ [newFinalOutputRow input newId createdAt] })

/-- C4: `createFinalOutput` checks its prerequisites in the fixed source
order — (a) video found and uploaded, (b) translation job found for the
video and completed, (c) audio job found for the translation job and
completed, (d) no final output for the identical triple — stopping at the
first failure (each limb holds whatever the rest of the database contains,
and every failure leaves the state unchanged); and a translation job owned
by a different video yields exactly the same error value as a nonexistent
one, because both fall out of the single conjoined id-and-owner lookup. -/
theorem createFinalOutput_validation_order (db db1 db2 : DB)
    (input : CreateFinalOutputInput) (newId createdAt : Nat) :
    (findVideoById db input.video_id = none →
      createFinalOutput db input newId createdAt =
        (.error (videoNotFoundMessage input.video_id), db)) ∧
    (∀ video, findVideoById db input.video_id = some video →
      video.upload_status ≠ .uploaded →
      createFinalOutput db input newId createdAt =
        (.error (videoNotUploadedMessage input.video_id video.upload_status), db)) ∧
    (∀ video, findVideoById db input.video_id = some video →
      video.upload_status = .uploaded →
      findTranslationJobByIdAndVideoId db input.translation_job_id
        input.video_id = none →
      createFinalOutput db input newId createdAt =
        (.error (translationJobNotFoundForVideoMessage input.translation_job_id
          input.video_id), db)) ∧
    (∀ video tj, findVideoById db input.video_id = some video →
      video.upload_status = .uploaded →
      findTranslationJobByIdAndVideoId db input.translation_job_id
        input.video_id = some tj →
      tj.status ≠ .completed →
      createFinalOutput db input newId createdAt =
        (.error (translationJobNotCompletedMessage input.translation_job_id
          tj.status), db)) ∧
    (∀ video tj, findVideoById db input.video_id = some video →
      video.upload_status = .uploaded →
      findTranslationJobByIdAndVideoId db input.translation_job_id
        input.video_id = some tj →
      tj.status = .completed →
      findAudioJobByIdAndTranslationJobId db input.audio_generation_job_id
        input.translation_job_id = none →
      createFinalOutput db input newId createdAt =
        (.error (audioJobNotFoundForTranslationJobMessage
          input.audio_generation_job_id input.translation_job_id), db)) ∧
    (∀ video tj aj, findVideoById db input.video_id = some video →
      video.upload_status = .uploaded →
      findTranslationJobByIdAndVideoId db input.translation_job_id
        input.video_id = some tj →
      tj.status = .completed →
      findAudioJobByIdAndTranslationJobId db input.audio_generation_job_id
        input.translation_job_id = some aj →
      aj.status ≠ .completed →
      createFinalOutput db input newId createdAt =
        (.error (audioJobNotCompletedMessage input.audio_generation_job_id
          aj.status), db)) ∧
    (∀ video tj aj, findVideoById db input.video_id = some video →
      video.upload_status = .uploaded →
      findTranslationJobByIdAndVideoId db input.translation_job_id
        input.video_id = some tj →
      tj.status = .completed →
      findAudioJobByIdAndTranslationJobId db input.audio_generation_job_id
        input.translation_job_id = some aj →
      aj.status = .completed →
      0 < (finalOutputsByTriple db input).length →
      createFinalOutput db input newId createdAt =
        (.error (finalOutputConflictMessage input), db)) ∧
    ((∀ j ∈ db1.translationJobs, j.id ≠ input.translation_job_id) →
      (∃ j ∈ db2.translationJobs, j.id = input.translation_job_id ∧
        j.video_id ≠ input.video_id) →
      (∀ j ∈ db2.translationJobs, j.id = input.translation_job_id →
        j.video_id ≠ input.video_id) →
      (∃ v1, findVideoById db1 input.video_id = some v1 ∧
        v1.upload_status = .uploaded) →
      (∃ v2, findVideoById db2 input.video_id = some v2 ∧
        v2.upload_status = .uploaded) →
      (createFinalOutput db1 input newId createdAt).1 =
        (createFinalOutput db2 input newId createdAt).1) := by
  refine ⟨?_, ?_, ?_, ?_, ?_, ?_, ?_, ?_⟩
  · intro hv
    simp [createFinalOutput, hv]
  · intro video hv hup
    simp [createFinalOutput, hv, hup]
  · intro video hv hup htj
    simp [createFinalOutput, hv, hup, htj]
  · intro video tj hv hup htj htjc
    simp [createFinalOutput, hv, hup, htj, htjc]
  · intro video tj hv hup htj htjc haj
    simp [createFinalOutput, hv, hup, htj, htjc, haj]
  · intro video tj aj hv hup htj htjc haj hajc
    simp [createFinalOutput, hv, hup, htj, htjc, haj, hajc]
  · intro video tj aj hv hup htj htjc haj hajc hconf
    simp [createFinalOutput, hv, hup, htj, htjc, haj, hajc, hconf]
  · rintro h1 ⟨jf, hjf, hjfid, hjfvid⟩ h2 ⟨v1, hv1, hup1⟩ ⟨v2, hv2, hup2⟩
    have hfind1 : findTranslationJobByIdAndVideoId db1 input.translation_job_id
        input.video_id = none := by
      rw [findTranslationJobByIdAndVideoId, List.find?_eq_none]
      intro j hj
      simp only [Bool.and_eq_true, beq_iff_eq, not_and]
      intro hid
      exact absurd hid (h1 j hj)
    have hfind2 : findTranslationJobByIdAndVideoId db2 input.translation_job_id
        input.video_id = none := by
      rw [findTranslationJobByIdAndVideoId, List.find?_eq_none]
      intro j hj
      simp only [Bool.and_eq_true, beq_iff_eq, not_and]
      exact h2 j hj
    have hb1 : createFinalOutput db1 input newId createdAt =
        (.error (translationJobNotFoundForVideoMessage input.translation_job_id
          input.video_id), db1) := by
      simp [createFinalOutput, hv1, hup1, hfind1]
    have hb2 : createFinalOutput db2 input newId createdAt =
        (.error (translationJobNotFoundForVideoMessage input.translation_job_id
          input.video_id), db2) := by
      simp [createFinalOutput, hv2, hup2, hfind2]
    rw [hb1, hb2]

/-- Inversion of a successful `createFinalOutput` run: success forces every
validation to have passed, pins the created row, and shows the new state is
the old one with exactly that row appended. -/
theorem createFinalOutput_ok_inversion (db : DB) (input : CreateFinalOutputInput)
    (newId createdAt : Nat) (fo : FinalOutput) (db2 : DB)
    (h : createFinalOutput db input newId createdAt = (.ok fo, db2)) :
    (∃ video, findVideoById db input.video_id = some video ∧
      video.upload_status = .uploaded) ∧
    (∃ tj, findTranslationJobByIdAndVideoId db input.translation_job_id
      input.video_id = some tj ∧ tj.status = .completed) ∧
    (∃ aj, findAudioJobByIdAndTranslationJobId db input.audio_generation_job_id
      input.translation_job_id = some aj ∧ aj.status = .completed) ∧
    finalOutputsByTriple db input = [] ∧
    fo = newFinalOutputRow input newId createdAt ∧
    db2 = { db with finalOutputs :=
      db.finalOutputs ++ [newFinalOutputRow input newId createdAt] } := by
  unfold createFinalOutput at h
  rcases hv : findVideoById db input.video_id with _ | video <;>
    simp only [hv] at h
  · simp at h
  by_cases hup : video.upload_status = .uploaded
  case neg => rw [if_pos hup] at h; simp at h
  rw [if_neg (not_not_intro hup)] at h
  rcases htj : findTranslationJobByIdAndVideoId db input.translation_job_id
      input.video_id with _ | tj <;> simp only [htj] at h
  · simp at h
  by_cases htjc : tj.status = .completed
  case neg => rw [if_pos htjc] at h; simp at h
  rw [if_neg (not_not_intro htjc)] at h
  rcases haj : findAudioJobByIdAndTranslationJobId db input.audio_generation_job_id
      input.translation_job_id with _ | aj <;> simp only [haj] at h
  · simp at h
  by_cases hajc : aj.status = .completed
  case neg => rw [if_pos hajc] at h; simp at h
  rw [if_neg (not_not_intro hajc)] at h
  by_cases hconf : 0 < (finalOutputsByTriple db input).length
  case pos => rw [if_pos hconf] at h; simp at h
  rw [if_neg hconf] at h
  simp only [Prod.mk.injEq, Except.ok.injEq] at h
  obtain ⟨hfo, hdb⟩ := h
  exact ⟨⟨video, rfl, hup⟩, ⟨tj, rfl, htjc⟩, ⟨aj, rfl, hajc⟩,
    List.length_eq_zero.mp (Nat.le_zero.mp (Nat.not_lt.mp hconf)),
    hfo.symm, hdb.symm⟩

/-- The conflict error fired by an existing identical triple once checks
(a)-(c) pass, leaving the database unchanged. -/
theorem createFinalOutput_conflict_of_existing_triple (db : DB)
    (input : CreateFinalOutputInput) (newId createdAt : Nat)
    (video : Video) (tj : TranslationJob) (aj : AudioGenerationJob)
    (hv : findVideoById db input.video_id = some video)
    (hup : video.upload_status = .uploaded)
    (htj : findTranslationJobByIdAndVideoId db input.translation_job_id
      input.video_id = some tj)
    (htjc : tj.status = .completed)
    (haj : findAudioJobByIdAndTranslationJobId db input.audio_generation_job_id
      input.translation_job_id = some aj)
    (hajc : aj.status = .completed)
    (hconf : 0 < (finalOutputsByTriple db input).length) :
    createFinalOutput db input newId createdAt =
      (.error (finalOutputConflictMessage input), db) := by
  simp [createFinalOutput, hv, hup, htj, htjc, haj, hajc, hconf]

/-- C6: creating a final output for a triple that already succeeded fails
with the Conflict error and returns the state unchanged (so the stored set
of final outputs stays as it was); and the uniqueness check blocks only the
identical triple — whenever checks (a)-(c) pass and no stored final output
matches the *exact* triple, the call succeeds and appends the new row, no
matter what other final outputs (e.g. for the same video with other jobs)
exist. -/
theorem createFinalOutput_triple_uniqueness (db : DB)
    (input : CreateFinalOutputInput) (newId createdAt : Nat) :
    (∀ fo db2 newId2 createdAt2,
      createFinalOutput db input newId createdAt = (.ok fo, db2) →
      createFinalOutput db2 input newId2 createdAt2 =
        (.error (finalOutputConflictMessage input), db2)) ∧
    (∀ video tj aj,
      findVideoById db input.video_id = some video →
      video.upload_status = .uploaded →
      findTranslationJobByIdAndVideoId db input.translation_job_id
        input.video_id = some tj →
      tj.status = .completed →
      findAudioJobByIdAndTranslationJobId db input.audio_generation_job_id
        input.translation_job_id = some aj →
      aj.status = .completed →
      finalOutputsByTriple db input = [] →
      createFinalOutput db input newId createdAt =
        (.ok (newFinalOutputRow input newId createdAt),
          { db with finalOutputs :=
              db.finalOutputs ++ [newFinalOutputRow input newId createdAt] })) := by
  constructor
  · intro fo db2 newId2 createdAt2 h
    obtain ⟨⟨video, hv, hup⟩, ⟨tj, htj, htjc⟩, ⟨aj, haj, hajc⟩, hnil, hfo, hdb⟩ :=
      createFinalOutput_ok_inversion db input newId createdAt fo db2 h
    subst hdb
    refine createFinalOutput_conflict_of_existing_triple _ input newId2 createdAt2
      video tj aj hv hup htj htjc haj hajc ?_
    have happ : finalOutputsByTriple
        { db with finalOutputs :=
            db.finalOutputs ++ [newFinalOutputRow input newId createdAt] } input =
        finalOutputsByTriple db input ++ [newFinalOutputRow input newId createdAt] := by
      simp [finalOutputsByTriple, List.filter_append, newFinalOutputRow]
    rw [happ, hnil]
    simp
  · intro video tj aj hv hup htj htjc haj hajc hnil
    simp [createFinalOutput, hv, hup, htj, htjc, haj, hajc, hnil]

/-- Database containing the uploaded video but no translation jobs. -/
def dbNoTranslationJob : DB :=
  { videos := [video1], translationJobs := [], audioGenerationJobs := [],
    finalOutputs := [] }

/-- A completed translation job owned by a *different* video (id 99). -/
def tjForeign : TranslationJob :=
  { id := 3, video_id := 99, source_language := .en, target_language := .es,
    status := .completed, original_audio_path := none, translated_text := none,
    error_message := none, started_at := none, completed_at := none,
    created_at := 5 }

/-- Database where translation job 3 exists but belongs to video 99. -/
def dbForeignTranslationJob : DB :=
  { videos := [video1], translationJobs := [tjForeign], audioGenerationJobs := [],
    finalOutputs := [] }

/-- A creation request tying video 1, translation job 3 and audio job 4. -/
def finalInput : CreateFinalOutputInput :=
  { video_id := 1, translation_job_id := 3, audio_generation_job_id := 4,
    final_video_path := "/outputs/a.es.mp4" }

theorem createFinalOutput_validation_order_witness :
    (createFinalOutput dbNoTranslationJob finalInput 9 9).1 =
      (createFinalOutput dbForeignTranslationJob finalInput 9 9).1 ∧
    createFinalOutput emptyDb finalInput 9 9 =
      (.error (videoNotFoundMessage 1), emptyDb) :=
  ⟨(createFinalOutput_validation_order dbNoTranslationJob dbNoTranslationJob
      dbForeignTranslationJob finalInput 9 9).2.2.2.2.2.2.2
      (by decide) ⟨tjForeign, by decide, by decide⟩ (by decide)
      ⟨video1, rfl, rfl⟩ ⟨video1, rfl, rfl⟩,
    (createFinalOutput_validation_order emptyDb emptyDb emptyDb finalInput 9 9).1
      rfl⟩

/-- Completed translation job for video 1. -/
def tjDone : TranslationJob :=
  { id := 3, video_id := 1, source_language := .en, target_language := .es,
    status := .completed, original_audio_path := none, translated_text := none,
    error_message := none, started_at := none, completed_at := none,
    created_at := 5 }

/-- Completed audio generation job for translation job 3. -/
def ajDone : AudioGenerationJob :=
  { id := 4, translation_job_id := 3, status := .completed,
    generated_audio_path := none, voice_cloned := true, error_message := none,
    started_at := none, completed_at := none, created_at := 6 }

/-- A final output already stored for the same video but a different
translation/audio pair. -/
def otherOutput : FinalOutput :=
  { id := 1, video_id := 1, translation_job_id := 7,
    audio_generation_job_id := 8, final_video_path := "/outputs/a.fr.mp4",
    created_at := 7 }

/-- Database where the whole pipeline for `finalInput` is completed and a
final output for another pipeline of the same video already exists. -/
def readyDb : DB :=
  { videos := [video1], translationJobs := [tjDone],
    audioGenerationJobs := [ajDone], finalOutputs := [otherOutput] }

/-- `readyDb` after the first successful creation. -/
def readyDb2 : DB :=
  { readyDb with finalOutputs :=
      readyDb.finalOutputs ++ [newFinalOutputRow finalInput 10 20] }

theorem createFinalOutput_triple_uniqueness_witness :
    createFinalOutput readyDb finalInput 10 20 =
      (.ok (newFinalOutputRow finalInput 10 20), readyDb2) ∧
    createFinalOutput readyDb2 finalInput 11 21 =
      (.error (finalOutputConflictMessage finalInput), readyDb2) :=
  have hok : createFinalOutput readyDb finalInput 10 20 =
      (.ok (newFinalOutputRow finalInput 10 20), readyDb2) :=
    (createFinalOutput_triple_uniqueness readyDb finalInput 10 20).2
      video1 tjDone ajDone rfl rfl rfl rfl rfl rfl (by decide)
  ⟨hok, (createFinalOutput_triple_uniqueness readyDb finalInput 10 20).1
    (newFinalOutputRow finalInput 10 20) readyDb2 11 21 hok⟩

/-! ## AudioGenerationJob creation (`createAudioGenerationJob`, src/unnamed/part_010) -/

/-- Input payload `CreateAudioGenerationJobInput` of `src/server/src/schema.ts`. -/
structure CreateAudioGenerationJobInput where
  translation_job_id : Nat
  voice_cloned : Bool
deriving DecidableEq, Repr

/-- `SELECT * FROM translation_jobs WHERE id = jobId` followed by `rows[0]`
(part_010, the existence check). -/
def findTranslationJobById (db : DB) (jobId : Nat) : Option TranslationJob :=
  db.translationJobs.find? (fun j => j.id == jobId)

def translationJobMissingMessage (jobId : Nat) : String :=
  "Translation job with ID " ++ toString jobId ++ " not found"

def translationJobNotReadyMessage (status : TranslationStatus) : String :=
  "Translation job must be completed before audio generation. Current status: " ++
    translationStatusText status

/-- The row inserted by `createAudioGenerationJob` (part_010): status starts
at `pending`, paths and timestamps NULL; the serial `id` and the
`defaultNow()` timestamp are the explicit `newId`/`createdAt` parameters. -/
def newAudioGenerationJobRow (input : CreateAudioGenerationJobInput)
    (newId createdAt : Nat) : AudioGenerationJob :=
  { id := newId, translation_job_id := input.translation_job_id,
    status := .pending, generated_audio_path := none,
    voice_cloned := input.voice_cloned, error_message := none,
    started_at := none, completed_at := none, created_at := createdAt }

/-- Embedding of `createAudioGenerationJob` (src/unnamed/part_010): NotFound
when the translation job is absent, InvalidState when its status is not
`completed` (both leaving the database unchanged), insert otherwise. -/
def createAudioGenerationJob (db : DB) (input : CreateAudioGenerationJobInput)
    (newId createdAt : Nat) : Except String AudioGenerationJob × DB :=
  match findTranslationJobById db input.translation_job_id with
  | none => (.error (translationJobMissingMessage input.translation_job_id), db)
  | some translationJob =>
    if translationJob.status ≠ .completed then
      (.error (translationJobNotReadyMessage translationJob.status), db)
    else
      (.ok (newAudioGenerationJobRow input newId createdAt),
        { db with audioGenerationJobs :=
            db.audioGenerationJobs ++ [newAudioGenerationJobRow input newId createdAt] })

/-- C7: `createAudioGenerationJob` fails NotFound (message containing the
requested id) when no translation job has the given id, fails InvalidState
(message containing the actual status) when the job's status is anything but
`completed`, and both failures return the database unchanged — no job row is
inserted; only a `completed` translation job leads to an insert of the new
pending job. -/
theorem createAudioGenerationJob_validation (db : DB)
    (input : CreateAudioGenerationJobInput) (newId createdAt : Nat) :
    (findTranslationJobById db input.translation_job_id = none →
      createAudioGenerationJob db input newId createdAt =
        (.error (translationJobMissingMessage input.translation_job_id), db)) ∧
    (∃ s1 s2, translationJobMissingMessage input.translation_job_id =
      s1 ++ toString input.translation_job_id ++ s2) ∧
    (∀ tj, findTranslationJobById db input.translation_job_id = some tj →
      tj.status ≠ .completed →
      createAudioGenerationJob db input newId createdAt =
        (.error (translationJobNotReadyMessage tj.status), db)) ∧
    (∀ status, ∃ s1, translationJobNotReadyMessage status =
      s1 ++ translationStatusText status) ∧
    (∀ tj, findTranslationJobById db input.translation_job_id = some tj →
      tj.status = .completed →
      createAudioGenerationJob db input newId createdAt =
        (.ok (newAudioGenerationJobRow input newId createdAt),
          { db with audioGenerationJobs :=
              db.audioGenerationJobs ++
                [newAudioGenerationJobRow input newId createdAt] })) := by
  refine ⟨?_, ⟨"Translation job with ID ", " not found", rfl⟩, ?_,
    fun status => ⟨"Translation job must be completed before audio generation. Current status: ", rfl⟩, ?_⟩
  · intro h
    simp [createAudioGenerationJob, h]
  · intro tj htj hst
    simp [createAudioGenerationJob, htj, hst]
  · intro tj htj hst
    simp [createAudioGenerationJob, htj, hst]

/-- Translation job 3 still in progress (`translating`). -/
def tjTranslating : TranslationJob :=
  { id := 3, video_id := 1, source_language := .en, target_language := .es,
    status := .translating, original_audio_path := none, translated_text := none,
    error_message := none, started_at := none, completed_at := none,
    created_at := 5 }

/-- Database whose only translation job is still `translating`. -/
def translatingDb : DB :=
  { videos := [video1], translationJobs := [tjTranslating],
    audioGenerationJobs := [], finalOutputs := [] }

/-- A request for a voice-cloned audio generation on translation job 3. -/
def audioInput : CreateAudioGenerationJobInput :=
  { translation_job_id := 3, voice_cloned := true }

theorem createAudioGenerationJob_validation_witness :
    createAudioGenerationJob emptyDb audioInput 5 6 =
      (.error (translationJobMissingMessage 3), emptyDb) ∧
    createAudioGenerationJob translatingDb audioInput 5 6 =
      (.error (translationJobNotReadyMessage .translating), translatingDb) :=
  ⟨(createAudioGenerationJob_validation emptyDb audioInput 5 6).1 rfl,
    (createAudioGenerationJob_validation translatingDb audioInput 5 6).2.2.1
      tjTranslating rfl (by decide)⟩

/-! ## TranslationJob update (`updateTranslationJob`, src/unnamed/part_011) -/

/-- Input payload `UpdateTranslationJobInput` of `src/server/src/schema.ts`:
the outer `Option` mirrors the `input.x !== undefined` guards (field present
in the patch or not); for nullable columns the inner `Option` is SQL NULL. -/
structure UpdateTranslationJobInput where
  id : Nat
  status : Option TranslationStatus
  original_audio_path : Option (Option String)
  translated_text : Option (Option String)
  error_message : Option (Option String)
  started_at : Option (Option Nat)
  completed_at : Option (Option Nat)
deriving DecidableEq, Repr

/-- The effect of `SET updateData` on one row: each column named in the
patch takes the patch value, every other column keeps its prior value
(part_011 builds `updateData` from exactly the provided fields; `id`,
`video_id`, `source_language`, `target_language` and `created_at` can never
appear in it). -/
def applyTranslationJobUpdate (input : UpdateTranslationJobInput)
    (job : TranslationJob) : TranslationJob :=
  { job with
    status := input.status.getD job.status,
    original_audio_path := input.original_audio_path.getD job.original_audio_path,
    translated_text := input.translated_text.getD job.translated_text,
    error_message := input.error_message.getD job.error_message,
    started_at := input.started_at.getD job.started_at,
    completed_at := input.completed_at.getD job.completed_at }

/-- One row under the UPDATE's WHERE clause: the patch applies only to rows
whose `id` matches the input. -/
def patchRowIfMatch (input : UpdateTranslationJobInput) (j : TranslationJob) :
    TranslationJob :=
  if j.id == input.id then applyTranslationJobUpdate input j else j

def translationJobUpdateMissingMessage (jobId : Nat) : String :=
  "Translation job with id " ++ toString jobId ++ " not found"

/-- Embedding of `updateTranslationJob` (src/unnamed/part_011):
`UPDATE translation_jobs SET updateData WHERE id = input.id RETURNING *` —
every row with the given id is patched, the rest stay put; an empty
RETURNING set means nothing matched, and the handler throws its not-found
error with the database unchanged. -/
def updateTranslationJob (db : DB) (input : UpdateTranslationJobInput) :
    Except String TranslationJob × DB :=
  let updatedRows := db.translationJobs.map (patchRowIfMatch input)
  match updatedRows.filter (fun j => j.id == input.id) with
  | [] => (.error (translationJobUpdateMissingMessage input.id), db)
  | j :: _ => (.ok j, { db with translationJobs := updatedRows })

/-- `Forall₂` between a list and its image under a pointwise-related map. -/
theorem forall₂_map_right {α : Type} (R : α → α → Prop) (f : α → α) :
    ∀ l : List α, (∀ x ∈ l, R x (f x)) → List.Forall₂ R l (l.map f)
  | [], _ => List.Forall₂.nil
  | a :: t, h =>
      List.Forall₂.cons (h a (List.mem_cons_self a t))
        (forall₂_map_right R f t (fun x hx => h x (List.mem_cons_of_mem a hx)))

/-- A map that fixes every element of a list is the identity on it. -/
theorem map_eq_self_of_fixed {α : Type} (f : α → α) :
    ∀ l : List α, (∀ x ∈ l, f x = x) → l.map f = l
  | [], _ => rfl
  | a :: t, h => by
      rw [List.map_cons, h a (List.mem_cons_self a t),
        map_eq_self_of_fixed f t (fun x hx => h x (List.mem_cons_of_mem a hx))]

/-- C10: `updateTranslationJob` touches nothing but the translation-jobs
table; row for row, a row whose id differs from the input is returned
unchanged, and the row with the input id keeps its `id`, `video_id`,
`source_language`, `target_language` and `created_at`, and keeps every field
the patch does not provide; when no row has the id, the handler returns the
not-found error and the whole database unchanged. -/
theorem updateTranslationJob_frame (db : DB) (input : UpdateTranslationJobInput) :
    (updateTranslationJob db input).2.videos = db.videos ∧
    (updateTranslationJob db input).2.audioGenerationJobs =
      db.audioGenerationJobs ∧
    (updateTranslationJob db input).2.finalOutputs = db.finalOutputs ∧
    List.Forall₂ (fun (j j' : TranslationJob) =>
      (j.id ≠ input.id → j' = j) ∧
      (j.id = input.id →
        j'.id = j.id ∧ j'.video_id = j.video_id ∧
        j'.source_language = j.source_language ∧
        j'.target_language = j.target_language ∧
        j'.created_at = j.created_at ∧
        (input.status = none → j'.status = j.status) ∧
        (input.original_audio_path = none →
          j'.original_audio_path = j.original_audio_path) ∧
        (input.translated_text = none → j'.translated_text = j.translated_text) ∧
        (input.error_message = none → j'.error_message = j.error_message) ∧
        (input.started_at = none → j'.started_at = j.started_at) ∧
        (input.completed_at = none → j'.completed_at = j.completed_at)))
      db.translationJobs (updateTranslationJob db input).2.translationJobs ∧
    ((∀ j ∈ db.translationJobs, j.id ≠ input.id) →
      (updateTranslationJob db input).1 =
        .error (translationJobUpdateMissingMessage input.id) ∧
      (updateTranslationJob db input).2 = db) := by
  have hsplit : (updateTranslationJob db input).2 = db ∨
      (updateTranslationJob db input).2 =
        { db with translationJobs := db.translationJobs.map (patchRowIfMatch input) } := by
    simp only [updateTranslationJob]
    rcases hfil : (db.translationJobs.map (patchRowIfMatch input)).filter
        (fun j => j.id == input.id) with _ | ⟨j0, rest⟩ <;> rw [hfil]
    · exact Or.inl rfl
    · exact Or.inr rfl
  have helem : ∀ j ∈ db.translationJobs,
      (j.id ≠ input.id → patchRowIfMatch input j = j) ∧
      (j.id = input.id →
        (patchRowIfMatch input j).id = j.id ∧
        (patchRowIfMatch input j).video_id = j.video_id ∧
        (patchRowIfMatch input j).source_language = j.source_language ∧
        (patchRowIfMatch input j).target_language = j.target_language ∧
        (patchRowIfMatch input j).created_at = j.created_at ∧
        (input.status = none → (patchRowIfMatch input j).status = j.status) ∧
        (input.original_audio_path = none →
          (patchRowIfMatch input j).original_audio_path = j.original_audio_path) ∧
        (input.translated_text = none →
          (patchRowIfMatch input j).translated_text = j.translated_text) ∧
        (input.error_message = none →
          (patchRowIfMatch input j).error_message = j.error_message) ∧
        (input.started_at = none →
          (patchRowIfMatch input j).started_at = j.started_at) ∧
        (input.completed_at = none →
          (patchRowIfMatch input j).completed_at = j.completed_at)) := by
    intro j hj
    by_cases hid : j.id = input.id
    · refine ⟨fun hne => absurd hid hne, fun _ => ?_⟩
      have hcond : (j.id == input.id) = true := beq_iff_eq.mpr hid
      simp only [patchRowIfMatch, hcond, if_true]
      refine ⟨rfl, rfl, rfl, rfl, rfl, ?_, ?_, ?_, ?_, ?_, ?_⟩ <;>
        (intro hn; simp [applyTranslationJobUpdate, hn])
    · have hrow : patchRowIfMatch input j = j := by
        simp [patchRowIfMatch, hid]
      exact ⟨fun _ => hrow, fun h => absurd h hid⟩
  refine ⟨?_, ?_, ?_, ?_, ?_⟩
  · rcases hsplit with h | h <;> rw [h]
  · rcases hsplit with h | h <;> rw [h]
  · rcases hsplit with h | h <;> rw [h]
  · rcases hsplit with h | h <;> rw [h]
    · exact List.forall₂_same.mpr (fun j hj =>
        ⟨fun _ => rfl, fun _ =>
          ⟨rfl, rfl, rfl, rfl, rfl, fun _ => rfl, fun _ => rfl, fun _ => rfl,
            fun _ => rfl, fun _ => rfl, fun _ => rfl⟩⟩)
    · exact forall₂_map_right _ _ db.translationJobs helem
  · intro hnone
    have hmap : db.translationJobs.map (patchRowIfMatch input) =
        db.translationJobs := by
      apply map_eq_self_of_fixed
      intro x hx
      simp [patchRowIfMatch, hnone x hx]
    have hfil : (db.translationJobs.map (patchRowIfMatch input)).filter
        (fun j => j.id == input.id) = [] := by
      rw [hmap, List.filter_eq_nil_iff]
      intro j hj
      simpa using hnone j hj
    refine ⟨?_, ?_⟩ <;> simp [updateTranslationJob, hfil]

/-- A patch for job id 5 (absent from `strictDb`) setting only the status. -/
def updInput : UpdateTranslationJobInput :=
  { id := 5, status := some .completed, original_audio_path := none,
    translated_text := none, error_message := none, started_at := none,
    completed_at := none }

theorem updateTranslationJob_frame_witness :
    (updateTranslationJob strictDb updInput).1 =
      .error (translationJobUpdateMissingMessage 5) ∧
    (updateTranslationJob strictDb updInput).2 = strictDb :=
  (updateTranslationJob_frame strictDb updInput).2.2.2.2 (by decide)

end VideoTranslator
